import Mathlib

/-!
Shallow embedding of the comms-link signalling service
(src/functions/src/index.ts): a Firestore-backed rendezvous service with
four HTTP handlers (connectionOffer, getOffer, connectionAnswer,
getAnswer) over per-session records {password?, offer?, answer?}.

The store is modelled as an association list of documents plus optional
injected read/write failures (a rejected Firestore promise).  The
handlers mirror the TypeScript control flow exactly, including the fact
that the awaited store read in getOffer, connectionAnswer and getAnswer
happens OUTSIDE the try/catch block, so a read failure escapes the
handler as an unhandled rejection (modelled as `Outcome.unhandled`)
instead of producing a response.
-/

/-- One session document, mirroring `interface ConnectionData
{password?: string; offer?: string; answer?: string}`.  A `none` field
is an absent field of the Firestore document. -/
structure ConnectionData where
  password : Option String
  offer : Option String
  answer : Option String
deriving DecidableEq

/-- JSON response body: `{success: true, data}` or `{success: false, error}`.
`sendSuccessResponse` is called once with a value of type `any` that may
be `undefined` (the `offer` field read from a snapshot), hence the
`Option String` payload; `none` models `data: undefined`. -/
inductive RBody where
  | success (data : Option String)
  | failure (error : String)
deriving DecidableEq

/-- Result of one handler invocation: either an HTTP response
(status plus JSON body), or an unhandled promise rejection that escaped
the handler because the failing `await` was not inside the try/catch. -/
inductive Outcome where
  | response (status : Nat) (body : RBody)
  | unhandled (err : String)
deriving DecidableEq

/-- JavaScript truthiness of a possibly-absent string: `undefined` and
the empty string are falsy, every other string is truthy. -/
def truthy : Option String → Bool
  | none => false
  | some s => s ≠ ""

/-- `isValidConnectionName` from index.ts: rejects a falsy (empty) name
and names longer than 100 characters, accepts everything else. -/
def isValidConnectionName (connectionName : String) : Bool :=
  if connectionName = "" || connectionName.length > 100 then false
  else true

/-- Field-wise merge used by `doc.set(data, {merge: true})` on an
existing document: a field present in the written partial replaces the
stored one, an absent field leaves the stored one untouched. -/
def mergeFields (old new : ConnectionData) : ConnectionData :=
  { password := new.password.orElse fun _ => old.password
    offer := new.offer.orElse fun _ => old.offer
    answer := new.answer.orElse fun _ => old.answer }

/-- Lookup of a document by id in the collection. -/
def readList : List (String × ConnectionData) → String → Option ConnectionData
  | [], _ => none
  | (k, v) :: rest, id => if k = id then some v else readList rest id

/-- `doc.set(data, {merge: true})`: create the document from the partial
if absent, otherwise merge the partial into the stored document. -/
def setMergeList : List (String × ConnectionData) → String → ConnectionData →
    List (String × ConnectionData)
  | [], id, w => [(id, w)]
  | (k, v) :: rest, id, w =>
      if k = id then (k, mergeFields v w) :: rest
      else (k, v) :: setMergeList rest id w

/-- The Firestore collection together with injected failure modes: when
`readFail` (resp. `writeFail`) is `some e`, a document read
(resp. write) rejects with cause `e`. -/
structure FStore where
  docs : List (String × ConnectionData)
  readFail : Option String
  writeFail : Option String
deriving DecidableEq

/-- A document read: rejects when the store's read failure is armed,
otherwise resolves to the snapshot (`none` = document does not exist). -/
def fsRead (st : FStore) (id : String) : Except String (Option ConnectionData) :=
  match st.readFail with
  | some e => .error e
  | none => .ok (readList st.docs id)

/-- A merge write: rejects when the store's write failure is armed,
otherwise resolves to the updated store. -/
def fsWrite (st : FStore) (id : String) (w : ConnectionData) : Except String FStore :=
  match st.writeFail with
  | some e => .error e
  | none => .ok { st with docs := setMergeList st.docs id w }

/-- Handler `connectionOffer` (publish-offer).  Arguments model
`request.body.connectionName / password / offer`, each possibly absent.
The write is awaited inside the try block, so a write failure is caught
and answered with status 500. -/
def connectionOffer (st : FStore) (connectionName password offer : Option String) :
    Outcome × FStore :=
  let name := connectionName.getD ""
  if isValidConnectionName name = false then
    (.response 403 (.failure "Invalid connection name"), st)
  else
    let offerData : ConnectionData :=
      { password := some (password.getD ""), offer := some (offer.getD ""), answer := none }
    if truthy offerData.offer = false then
      (.response 403 (.failure "Invalid offer"), st)
    else
      match fsWrite st name offerData with
      | .ok st1 => (.response 200 (.success (some "Success")), st1)
      | .error e => (.response 500 (.failure ("Error: " ++ e)), st)

/-- Handler `getOffer` (fetch-offer).  The snapshot read is awaited
OUTSIDE the try block (index.ts line 84), so a read failure escapes as
an unhandled rejection and no response is sent. -/
def getOffer (st : FStore) (connectionName password : Option String) :
    Outcome × FStore :=
  let name := connectionName.getD ""
  let requestPassword := password.getD ""
  if isValidConnectionName name = false then
    (.response 403 (.failure "Invalid connection name"), st)
  else
    match fsRead st name with
    | .error e => (.unhandled e, st)
    | .ok none => (.response 404 (.failure "Connection offer not found"), st)
    | .ok (some doc) =>
        if truthy doc.password then
          if requestPassword ≠ doc.password.getD "" then
            (.response 403 (.failure "Invalid or incorrect password"), st)
          else (.response 200 (.success doc.offer), st)
        else (.response 200 (.success doc.offer), st)

/-- Handler `connectionAnswer` (publish-answer).  The snapshot read is
awaited OUTSIDE the try block (index.ts line 122); the answer write is
inside it, so only the write failure is answered with status 500. -/
def connectionAnswer (st : FStore) (connectionName password answer : Option String) :
    Outcome × FStore :=
  let name := connectionName.getD ""
  let requestPassword := password.getD ""
  if isValidConnectionName name = false then
    (.response 403 (.failure "Invalid connection name"), st)
  else
    match fsRead st name with
    | .error e => (.unhandled e, st)
    | .ok none => (.response 404 (.failure "Connection offer not found"), st)
    | .ok (some doc) =>
        if truthy doc.password = true ∧ requestPassword ≠ doc.password.getD "" then
          (.response 403 (.failure "Invalid or incorrect password"), st)
        else if truthy doc.offer = false then
          (.response 403 (.failure "Connection offer not found"), st)
        else
          match fsWrite st name { password := none, offer := none, answer := some (answer.getD "") } with
          | .ok st1 => (.response 200 (.success (some "Success")), st1)
          | .error e => (.response 500 (.failure ("Error: " ++ e)), st)

/-- Handler `getAnswer` (fetch-answer).  No password parameter is read
at all.  The snapshot read is awaited OUTSIDE the try block (index.ts
line 164), so a read failure escapes as an unhandled rejection. -/
def getAnswer (st : FStore) (connectionName : Option String) :
    Outcome × FStore :=
  let name := connectionName.getD ""
  if isValidConnectionName name = false then
    (.response 403 (.failure "Invalid connection name"), st)
  else
    match fsRead st name with
    | .error e => (.unhandled e, st)
    | .ok none => (.response 403 (.failure "Connection does not exist"), st)
    | .ok (some doc) =>
        if truthy doc.answer then (.response 200 (.success doc.answer), st)
        else (.response 404 (.failure "Connection answer not found"), st)

/-- Reading back the id just written by a merge write yields the merged
document: the partial merged into the old document when one existed,
the partial itself otherwise. -/
theorem readList_setMergeList (l : List (String × ConnectionData)) (id : String)
    (w : ConnectionData) :
    readList (setMergeList l id w) id =
      some (match readList l id with
            | some old => mergeFields old w
            | none => w) := by
  induction l with
  | nil => simp [setMergeList, readList]
  | cons p rest ih =>
      obtain ⟨k, v⟩ := p
      by_cases h : k = id
      · simp [setMergeList, readList, h]
      · simp [setMergeList, readList, h, ih]

/-- A non-empty string has positive length. -/
theorem one_le_length_of_ne_empty (s : String) (h : s ≠ "") : 1 ≤ s.length := by
  have hd : s.data ≠ [] := by
    intro hnil
    exact h (by cases s; simp_all)
  have := List.length_pos.mpr hd
  calc 1 ≤ s.data.length := this
    _ = s.length := String.length_data s

/-- C6: the identifier validator accepts exactly the strings of length 1
to 100 inclusive; in particular a 100-character identifier is accepted
and a 101-character identifier is rejected. -/
theorem c6_validator_accepts_length_one_to_hundred :
    (∀ id : String, isValidConnectionName id = true ↔ (1 ≤ id.length ∧ id.length ≤ 100))
    ∧ isValidConnectionName (String.mk (List.replicate 100 'a')) = true
    ∧ isValidConnectionName (String.mk (List.replicate 101 'a')) = false := by
  refine ⟨fun id => ?_, by decide, by decide⟩
  unfold isValidConnectionName
  constructor
  · intro h
    by_cases h0 : id = ""
    · simp [h0] at h
    · by_cases h1 : id.length > 100
      · simp [h0, h1] at h
      · exact ⟨one_le_length_of_ne_empty id h0, by omega⟩
  · rintro ⟨h1, h2⟩
    have h0 : id ≠ "" := by
      intro he
      rw [he] at h1
      simp [String.length_empty] at h1
    simp [h0, Nat.not_lt.mpr h2]

/-- C1 (code bug): a failing store read in fetch-offer, publish-answer
or fetch-answer is NOT surfaced to the caller as a 500 StorageFailure
response — the awaited read sits outside the try/catch in the source, so
the rejection escapes the handler unhandled and no response is sent.
A failing store write in publish-offer IS caught and answered with
status 500 carrying the cause, as the claim describes. -/
theorem c1_read_failure_escapes_unhandled :
    (getOffer ⟨[("abc", ⟨some "", some "sdp", none⟩)], some "disk error", none⟩
        (some "abc") (some "")).1 = .unhandled "disk error"
    ∧ (connectionAnswer ⟨[("abc", ⟨some "", some "sdp", none⟩)], some "disk error", none⟩
        (some "abc") (some "") (some "a")).1 = .unhandled "disk error"
    ∧ (getAnswer ⟨[("abc", ⟨some "", some "sdp", some "a"⟩)], some "disk error", none⟩
        (some "abc")).1 = .unhandled "disk error"
    ∧ (connectionOffer ⟨[], none, some "disk error"⟩ (some "abc") none (some "sdp")).1
        = .response 500 (.failure "Error: disk error") :=
  ⟨rfl, rfl, rfl, rfl⟩

/-- C2: fetch-answer applies no password gating: on a record whose
stored password and answer are both non-empty, fetch-answer with a valid
identifier succeeds and returns the answer, although the handler reads
no password at all. -/
theorem c2_fetch_answer_ignores_password (docs : List (String × ConnectionData))
    (id : String) (doc : ConnectionData)
    (hvalid : isValidConnectionName id = true)
    (hread : readList docs id = some doc)
    (hpw : truthy doc.password = true)
    (hans : truthy doc.answer = true) :
    (getAnswer ⟨docs, none, none⟩ (some id)).1 = .response 200 (.success doc.answer) := by
  simp [getAnswer, fsRead, hvalid, hread, hans]

/-- Witness for C2 at a concrete record with password "pw" and answer
"ans". -/
theorem c2_fetch_answer_ignores_password_witness :
    (getAnswer ⟨[("abc", ⟨some "pw", some "o", some "ans"⟩)], none, none⟩ (some "abc")).1
      = .response 200 (.success (some "ans")) :=
  c2_fetch_answer_ignores_password [("abc", ⟨some "pw", some "o", some "ans"⟩)] "abc"
    ⟨some "pw", some "o", some "ans"⟩ (by decide) (by decide) (by decide) (by decide)

/-- C8: on an existing record, fetch-answer fails with 404
"Connection answer not found" exactly when the answer field is absent or
empty, and succeeds returning the answer exactly when it is present and
non-empty. -/
theorem c8_fetch_answer_requires_nonempty_answer (docs : List (String × ConnectionData))
    (id : String) (doc : ConnectionData)
    (hvalid : isValidConnectionName id = true)
    (hread : readList docs id = some doc) :
    (truthy doc.answer = false →
      (getAnswer ⟨docs, none, none⟩ (some id)).1
        = .response 404 (.failure "Connection answer not found"))
    ∧ (truthy doc.answer = true →
      (getAnswer ⟨docs, none, none⟩ (some id)).1 = .response 200 (.success doc.answer)) := by
  constructor
  · intro h
    simp [getAnswer, fsRead, hvalid, hread, h]
  · intro h
    simp [getAnswer, fsRead, hvalid, hread, h]

/-- Witness for C8 at a concrete record whose answer is the empty
string, and at one whose answer is "ans". -/
theorem c8_fetch_answer_requires_nonempty_answer_witness :
    ((getAnswer ⟨[("abc", ⟨some "", some "o", some ""⟩)], none, none⟩ (some "abc")).1
        = .response 404 (.failure "Connection answer not found"))
    ∧ ((getAnswer ⟨[("abc", ⟨some "", some "o", some "ans"⟩)], none, none⟩ (some "abc")).1
        = .response 200 (.success (some "ans"))) :=
  ⟨(c8_fetch_answer_requires_nonempty_answer [("abc", ⟨some "", some "o", some ""⟩)] "abc"
      ⟨some "", some "o", some ""⟩ (by decide) (by decide)).1 (by decide),
   (c8_fetch_answer_requires_nonempty_answer [("abc", ⟨some "", some "o", some "ans"⟩)] "abc"
      ⟨some "", some "o", some "ans"⟩ (by decide) (by decide)).2 (by decide)⟩

/-- C10: fetch-offer performs no defensive check on the offer field: on
an existing record whose offer is absent or empty and whose password
check passes, fetch-offer succeeds and returns the absent/empty offer
value, while publish-answer on the same record fails with 403
"Connection offer not found". -/
theorem c10_fetch_offer_skips_offer_check (docs : List (String × ConnectionData))
    (id : String) (doc : ConnectionData) (supplied : String) (a : Option String)
    (hvalid : isValidConnectionName id = true)
    (hread : readList docs id = some doc)
    (hoffer : truthy doc.offer = false)
    (hpass : truthy doc.password = false ∨ supplied = doc.password.getD "") :
    (getOffer ⟨docs, none, none⟩ (some id) (some supplied)).1
      = .response 200 (.success doc.offer)
    ∧ (connectionAnswer ⟨docs, none, none⟩ (some id) (some supplied) a).1
      = .response 403 (.failure "Connection offer not found") := by
  rcases hpass with h | h
  · constructor
    · simp [getOffer, fsRead, hvalid, hread, h]
    · simp [connectionAnswer, fsRead, hvalid, hread, h, hoffer]
  · constructor
    · simp [getOffer, fsRead, hvalid, hread, h]
    · simp [connectionAnswer, fsRead, hvalid, hread, h, hoffer]

/-- Witness for C10 at a concrete password-protected record whose offer
field is the empty string, with the matching password supplied. -/
theorem c10_fetch_offer_skips_offer_check_witness :
    ((getOffer ⟨[("abc", ⟨some "pw", some "", some "x"⟩)], none, none⟩
        (some "abc") (some "pw")).1 = .response 200 (.success (some "")))
    ∧ ((connectionAnswer ⟨[("abc", ⟨some "pw", some "", some "x"⟩)], none, none⟩
        (some "abc") (some "pw") (some "a")).1
        = .response 403 (.failure "Connection offer not found")) :=
  c10_fetch_offer_skips_offer_check [("abc", ⟨some "pw", some "", some "x"⟩)] "abc"
    ⟨some "pw", some "", some "x"⟩ "pw" (some "a")
    (by decide) (by decide) (by decide) (Or.inr (by decide))

/-- C3: publishing an offer with no password and then fetching it with
no password returns exactly the published payload, on any starting
store state. -/
theorem c3_publish_then_fetch_offer_roundtrip (docs : List (String × ConnectionData))
    (id p : String)
    (hvalid : isValidConnectionName id = true)
    (hp : p ≠ "") :
    (connectionOffer ⟨docs, none, none⟩ (some id) none (some p)).1
      = .response 200 (.success (some "Success"))
    ∧ (getOffer (connectionOffer ⟨docs, none, none⟩ (some id) none (some p)).2
        (some id) none).1 = .response 200 (.success (some p)) := by
  have hst : connectionOffer ⟨docs, none, none⟩ (some id) none (some p)
      = (.response 200 (.success (some "Success")),
         ⟨setMergeList docs id ⟨some "", some p, none⟩, none, none⟩) := by
    simp [connectionOffer, fsWrite, hvalid, truthy, hp]
  refine ⟨by rw [hst], ?_⟩
  rw [hst]
  have hr := readList_setMergeList docs id ⟨some "", some p, none⟩
  cases hcase : readList docs id with
  | none =>
      rw [hcase] at hr
      simp only at hr
      simp [getOffer, fsRead, hvalid, hr, truthy]
  | some old =>
      rw [hcase] at hr
      simp only at hr
      simp [getOffer, fsRead, hvalid, hr, mergeFields, Option.orElse, truthy]

/-- Witness for C3 starting from the empty store with id "abc" and
payload "sdp". -/
theorem c3_publish_then_fetch_offer_roundtrip_witness :
    (connectionOffer ⟨[], none, none⟩ (some "abc") none (some "sdp")).1
      = .response 200 (.success (some "Success"))
    ∧ (getOffer (connectionOffer ⟨[], none, none⟩ (some "abc") none (some "sdp")).2
        (some "abc") none).1 = .response 200 (.success (some "sdp")) :=
  c3_publish_then_fetch_offer_roundtrip [] "abc" "sdp" (by decide) (by decide)

/-- C4: on an existing record, fetch-offer and publish-answer fail with
403 "Invalid or incorrect password" exactly when the stored password is
non-empty and the supplied one differs; a matching password passes the
check, and an empty or absent stored password lets any supplied
password through. -/
theorem c4_password_gating (docs : List (String × ConnectionData))
    (id : String) (doc : ConnectionData) (supplied a : String)
    (hvalid : isValidConnectionName id = true)
    (hread : readList docs id = some doc) :
    (truthy doc.password = true → supplied ≠ doc.password.getD "" →
      (getOffer ⟨docs, none, none⟩ (some id) (some supplied)).1
        = .response 403 (.failure "Invalid or incorrect password")
      ∧ (connectionAnswer ⟨docs, none, none⟩ (some id) (some supplied) (some a)).1
        = .response 403 (.failure "Invalid or incorrect password"))
    ∧ (truthy doc.password = true → supplied = doc.password.getD "" →
      (getOffer ⟨docs, none, none⟩ (some id) (some supplied)).1
        = .response 200 (.success doc.offer)
      ∧ (connectionAnswer ⟨docs, none, none⟩ (some id) (some supplied) (some a)).1
        ≠ .response 403 (.failure "Invalid or incorrect password"))
    ∧ (truthy doc.password = false →
      (getOffer ⟨docs, none, none⟩ (some id) (some supplied)).1
        = .response 200 (.success doc.offer)
      ∧ (connectionAnswer ⟨docs, none, none⟩ (some id) (some supplied) (some a)).1
        ≠ .response 403 (.failure "Invalid or incorrect password")) := by
  refine ⟨fun hpw hne => ⟨?_, ?_⟩, fun hpw heq => ⟨?_, ?_⟩, fun hpw => ⟨?_, ?_⟩⟩
  · simp [getOffer, fsRead, hvalid, hread, hpw, hne]
  · simp [connectionAnswer, fsRead, hvalid, hread, hpw, hne]
  · simp [getOffer, fsRead, hvalid, hread, hpw, heq]
  · by_cases hoff : truthy doc.offer
    · simp [connectionAnswer, fsRead, fsWrite, hvalid, hread, hpw, heq, hoff]
    · simp [connectionAnswer, fsRead, hvalid, hread, hpw, heq, hoff]
  · simp [getOffer, fsRead, hvalid, hread, hpw]
  · by_cases hoff : truthy doc.offer
    · simp [connectionAnswer, fsRead, fsWrite, hvalid, hread, hpw, hoff]
    · simp [connectionAnswer, fsRead, hvalid, hread, hpw, hoff]

/-- Witness for C4 at a record with password "pw": the wrong password
"x" is rejected on both operations, the matching one is accepted, and a
record with empty stored password accepts any supplied password. -/
theorem c4_password_gating_witness :
    ((getOffer ⟨[("abc", ⟨some "pw", some "o", none⟩)], none, none⟩
        (some "abc") (some "x")).1 = .response 403 (.failure "Invalid or incorrect password"))
    ∧ ((getOffer ⟨[("abc", ⟨some "pw", some "o", none⟩)], none, none⟩
        (some "abc") (some "pw")).1 = .response 200 (.success (some "o")))
    ∧ ((getOffer ⟨[("abc", ⟨some "", some "o", none⟩)], none, none⟩
        (some "abc") (some "anything")).1 = .response 200 (.success (some "o"))) :=
  ⟨((c4_password_gating [("abc", ⟨some "pw", some "o", none⟩)] "abc"
      ⟨some "pw", some "o", none⟩ "x" "a" (by decide) (by decide)).1
      (by decide) (by decide)).1,
   ((c4_password_gating [("abc", ⟨some "pw", some "o", none⟩)] "abc"
      ⟨some "pw", some "o", none⟩ "pw" "a" (by decide) (by decide)).2.1
      (by decide) (by decide)).1,
   ((c4_password_gating [("abc", ⟨some "", some "o", none⟩)] "abc"
      ⟨some "", some "o", none⟩ "anything" "a" (by decide) (by decide)).2.2
      (by decide)).1⟩

/-- C5: re-publishing an offer on an existing record (in particular one
whose answer is already set) overwrites the stored password and offer
with the newly supplied values and leaves the answer field exactly as it
was. -/
theorem c5_republish_preserves_answer (docs : List (String × ConnectionData))
    (id : String) (doc : ConnectionData) (pw2 : Option String) (p2 : String)
    (hvalid : isValidConnectionName id = true)
    (hread : readList docs id = some doc)
    (hans : truthy doc.answer = true)
    (hp : p2 ≠ "") :
    (connectionOffer ⟨docs, none, none⟩ (some id) pw2 (some p2)).1
      = .response 200 (.success (some "Success"))
    ∧ readList (connectionOffer ⟨docs, none, none⟩ (some id) pw2 (some p2)).2.docs id
      = some ⟨some (pw2.getD ""), some p2, doc.answer⟩ := by
  have hst : connectionOffer ⟨docs, none, none⟩ (some id) pw2 (some p2)
      = (.response 200 (.success (some "Success")),
         ⟨setMergeList docs id ⟨some (pw2.getD ""), some p2, none⟩, none, none⟩) := by
    simp [connectionOffer, fsWrite, hvalid, truthy, hp]
  refine ⟨by rw [hst], ?_⟩
  rw [hst]
  have hr := readList_setMergeList docs id ⟨some (pw2.getD ""), some p2, none⟩
  rw [hread] at hr
  simpa [mergeFields, Option.orElse] using hr

/-- Witness for C5: the record under "abc" has answer "ans"; after
re-publishing offer "new" with password "q" the record holds the new
offer and password and still answer "ans". -/
theorem c5_republish_preserves_answer_witness :
    (connectionOffer ⟨[("abc", ⟨some "pw", some "old", some "ans"⟩)], none, none⟩
        (some "abc") (some "q") (some "new")).1
      = .response 200 (.success (some "Success"))
    ∧ readList (connectionOffer ⟨[("abc", ⟨some "pw", some "old", some "ans"⟩)], none, none⟩
        (some "abc") (some "q") (some "new")).2.docs "abc"
      = some ⟨some "q", some "new", some "ans"⟩ :=
  c5_republish_preserves_answer [("abc", ⟨some "pw", some "old", some "ans"⟩)] "abc"
    ⟨some "pw", some "old", some "ans"⟩ (some "q") "new"
    (by decide) (by decide) (by decide) (by decide)

/-- C7: publish-answer accepts an absent or empty answer payload on a
record with a present offer and a passing password check, storing the
answer as the empty string, while publish-offer rejects an absent or
empty offer payload with 403 "Invalid offer". -/
theorem c7_empty_answer_accepted_empty_offer_rejected
    (docs : List (String × ConnectionData))
    (id : String) (doc : ConnectionData) (supplied : String)
    (hvalid : isValidConnectionName id = true)
    (hread : readList docs id = some doc)
    (hoffer : truthy doc.offer = true)
    (hpass : truthy doc.password = false ∨ supplied = doc.password.getD "") :
    ((connectionAnswer ⟨docs, none, none⟩ (some id) (some supplied) none).1
        = .response 200 (.success (some "Success")))
    ∧ (readList (connectionAnswer ⟨docs, none, none⟩ (some id) (some supplied) none).2.docs id
        = some ⟨doc.password, doc.offer, some ""⟩)
    ∧ ((connectionAnswer ⟨docs, none, none⟩ (some id) (some supplied) (some "")).1
        = .response 200 (.success (some "Success")))
    ∧ (readList (connectionAnswer ⟨docs, none, none⟩ (some id) (some supplied) (some "")).2.docs id
        = some ⟨doc.password, doc.offer, some ""⟩)
    ∧ ((connectionOffer ⟨docs, none, none⟩ (some id) (some supplied) none).1
        = .response 403 (.failure "Invalid offer"))
    ∧ ((connectionOffer ⟨docs, none, none⟩ (some id) (some supplied) (some "")).1
        = .response 403 (.failure "Invalid offer")) := by
  have key : ∀ a : Option String, a.getD "" = "" →
      connectionAnswer ⟨docs, none, none⟩ (some id) (some supplied) a
        = (.response 200 (.success (some "Success")),
           ⟨setMergeList docs id ⟨none, none, some ""⟩, none, none⟩) := by
    intro a ha
    rcases hpass with h | h
    · simp [connectionAnswer, fsRead, fsWrite, hvalid, hread, h, hoffer, ha]
    · simp [connectionAnswer, fsRead, fsWrite, hvalid, hread, h, hoffer, ha]
  have hmerge : readList (setMergeList docs id ⟨none, none, some ""⟩) id
      = some ⟨doc.password, doc.offer, some ""⟩ := by
    have hr := readList_setMergeList docs id ⟨none, none, some ""⟩
    rw [hread] at hr
    simpa [mergeFields, Option.orElse] using hr
  refine ⟨?_, ?_, ?_, ?_, ?_, ?_⟩
  · rw [key none rfl]
  · rw [key none rfl]; exact hmerge
  · rw [key (some "") rfl]
  · rw [key (some "") rfl]; exact hmerge
  · simp [connectionOffer, hvalid, truthy]
  · simp [connectionOffer, hvalid, truthy]

/-- Witness for C7 on a password-free record with offer "o": an absent
answer payload is stored as the empty string, and publish-offer rejects
an empty offer payload. -/
theorem c7_empty_answer_accepted_empty_offer_rejected_witness :
    ((connectionAnswer ⟨[("abc", ⟨some "", some "o", none⟩)], none, none⟩
        (some "abc") (some "") none).1 = .response 200 (.success (some "Success")))
    ∧ (readList (connectionAnswer ⟨[("abc", ⟨some "", some "o", none⟩)], none, none⟩
        (some "abc") (some "") none).2.docs "abc" = some ⟨some "", some "o", some ""⟩)
    ∧ ((connectionOffer ⟨[("abc", ⟨some "", some "o", none⟩)], none, none⟩
        (some "abc") (some "") none).1 = .response 403 (.failure "Invalid offer")) :=
  have h := c7_empty_answer_accepted_empty_offer_rejected
    [("abc", ⟨some "", some "o", none⟩)] "abc" ⟨some "", some "o", none⟩ ""
    (by decide) (by decide) (by decide) (Or.inl (by decide))
  ⟨h.1, h.2.1, h.2.2.2.2.1⟩

/-- Every outcome of publish-offer is one of: 403 invalid name, 403
invalid offer, 200 success acknowledgement, or 500 carrying the write
failure cause. -/
theorem connectionOffer_outcomes (st : FStore) (name pw offer : Option String) :
    (connectionOffer st name pw offer).1 = .response 403 (.failure "Invalid connection name")
    ∨ (connectionOffer st name pw offer).1 = .response 403 (.failure "Invalid offer")
    ∨ (connectionOffer st name pw offer).1 = .response 200 (.success (some "Success"))
    ∨ (∃ e, st.writeFail = some e
        ∧ (connectionOffer st name pw offer).1 = .response 500 (.failure ("Error: " ++ e))) := by
  by_cases hv : isValidConnectionName (name.getD "") = false
  · exact Or.inl (by simp [connectionOffer, hv])
  · by_cases ho : truthy (some (offer.getD "")) = false
    · exact Or.inr (Or.inl (by simp [connectionOffer, hv, ho]))
    · cases hw : st.writeFail with
      | none =>
          exact Or.inr (Or.inr (Or.inl (by simp [connectionOffer, fsWrite, hv, ho, hw])))
      | some e =>
          exact Or.inr (Or.inr (Or.inr
            ⟨e, rfl, by simp [connectionOffer, fsWrite, hv, ho, hw]⟩))

/-- Every outcome of fetch-offer is one of: 403 invalid name, an
unhandled read rejection, 404 not found, 403 password mismatch, or 200
carrying the stored offer field. -/
theorem getOffer_outcomes (st : FStore) (name pw : Option String) :
    (getOffer st name pw).1 = .response 403 (.failure "Invalid connection name")
    ∨ (∃ e, st.readFail = some e ∧ (getOffer st name pw).1 = .unhandled e)
    ∨ (getOffer st name pw).1 = .response 404 (.failure "Connection offer not found")
    ∨ (getOffer st name pw).1 = .response 403 (.failure "Invalid or incorrect password")
    ∨ (∃ d, (getOffer st name pw).1 = .response 200 (.success d)) := by
  by_cases hv : isValidConnectionName (name.getD "") = false
  · exact Or.inl (by simp [getOffer, hv])
  · cases hr : st.readFail with
    | some e => exact Or.inr (Or.inl ⟨e, rfl, by simp [getOffer, fsRead, hv, hr]⟩)
    | none =>
        cases hl : readList st.docs (name.getD "") with
        | none => exact Or.inr (Or.inr (Or.inl (by simp [getOffer, fsRead, hv, hr, hl])))
        | some doc =>
            by_cases hpw : truthy doc.password
            · by_cases hne : pw.getD "" = doc.password.getD ""
              · exact Or.inr (Or.inr (Or.inr (Or.inr
                  ⟨doc.offer, by simp [getOffer, fsRead, hv, hr, hl, hpw, hne]⟩)))
              · exact Or.inr (Or.inr (Or.inr (Or.inl
                  (by simp [getOffer, fsRead, hv, hr, hl, hpw, hne]))))
            · exact Or.inr (Or.inr (Or.inr (Or.inr
                ⟨doc.offer, by simp [getOffer, fsRead, hv, hr, hl, hpw]⟩)))

/-- Every outcome of publish-answer is one of: 403 invalid name, an
unhandled read rejection, 404 not found, 403 password mismatch, 403
offer not found, 200 success acknowledgement, or 500 carrying the write
failure cause. -/
theorem connectionAnswer_outcomes (st : FStore) (name pw answer : Option String) :
    (connectionAnswer st name pw answer).1 = .response 403 (.failure "Invalid connection name")
    ∨ (∃ e, st.readFail = some e ∧ (connectionAnswer st name pw answer).1 = .unhandled e)
    ∨ (connectionAnswer st name pw answer).1 = .response 404 (.failure "Connection offer not found")
    ∨ (connectionAnswer st name pw answer).1 = .response 403 (.failure "Invalid or incorrect password")
    ∨ (connectionAnswer st name pw answer).1 = .response 403 (.failure "Connection offer not found")
    ∨ (connectionAnswer st name pw answer).1 = .response 200 (.success (some "Success"))
    ∨ (∃ e, st.writeFail = some e
        ∧ (connectionAnswer st name pw answer).1 = .response 500 (.failure ("Error: " ++ e))) := by
  by_cases hv : isValidConnectionName (name.getD "") = false
  · exact Or.inl (by simp [connectionAnswer, hv])
  · cases hr : st.readFail with
    | some e => exact Or.inr (Or.inl ⟨e, rfl, by simp [connectionAnswer, fsRead, hv, hr]⟩)
    | none =>
        cases hl : readList st.docs (name.getD "") with
        | none =>
            exact Or.inr (Or.inr (Or.inl (by simp [connectionAnswer, fsRead, hv, hr, hl])))
        | some doc =>
            by_cases hgate : truthy doc.password = true ∧ ¬ pw.getD "" = doc.password.getD ""
            · exact Or.inr (Or.inr (Or.inr (Or.inl
                (by simp [connectionAnswer, fsRead, hv, hr, hl, hgate]))))
            · by_cases hoff : truthy doc.offer = false
              · exact Or.inr (Or.inr (Or.inr (Or.inr (Or.inl
                  (by simp [connectionAnswer, fsRead, hv, hr, hl, hgate, hoff])))))
              · cases hw : st.writeFail with
                | none =>
                    exact Or.inr (Or.inr (Or.inr (Or.inr (Or.inr (Or.inl
                      (by simp [connectionAnswer, fsRead, fsWrite, hv, hr, hl, hgate, hoff, hw]))))))
                | some e =>
                    exact Or.inr (Or.inr (Or.inr (Or.inr (Or.inr (Or.inr
                      ⟨e, rfl, by simp [connectionAnswer, fsRead, fsWrite, hv, hr, hl, hgate, hoff, hw]⟩)))))

/-- Every outcome of fetch-answer is one of: 403 invalid name, an
unhandled read rejection, 403 does-not-exist, 404 answer not found, or
200 carrying the stored answer field. -/
theorem getAnswer_outcomes (st : FStore) (name : Option String) :
    (getAnswer st name).1 = .response 403 (.failure "Invalid connection name")
    ∨ (∃ e, st.readFail = some e ∧ (getAnswer st name).1 = .unhandled e)
    ∨ (getAnswer st name).1 = .response 403 (.failure "Connection does not exist")
    ∨ (getAnswer st name).1 = .response 404 (.failure "Connection answer not found")
    ∨ (∃ d, (getAnswer st name).1 = .response 200 (.success d)) := by
  by_cases hv : isValidConnectionName (name.getD "") = false
  · exact Or.inl (by simp [getAnswer, hv])
  · cases hr : st.readFail with
    | some e => exact Or.inr (Or.inl ⟨e, rfl, by simp [getAnswer, fsRead, hv, hr]⟩)
    | none =>
        cases hl : readList st.docs (name.getD "") with
        | none => exact Or.inr (Or.inr (Or.inl (by simp [getAnswer, fsRead, hv, hr, hl])))
        | some doc =>
            by_cases ha : truthy doc.answer
            · exact Or.inr (Or.inr (Or.inr (Or.inr
                ⟨doc.answer, by simp [getAnswer, fsRead, hv, hr, hl, ha]⟩)))
            · exact Or.inr (Or.inr (Or.inr (Or.inl
                (by simp [getAnswer, fsRead, hv, hr, hl, ha]))))

/-- C9: when the store read succeeds, every response sent follows the
envelope convention — 200 with a success body, every failure a failure
body with 403 for invalid identifier, invalid offer, password mismatch
and offer-not-found, 404 for session-not-found and answer-not-found,
403 for the fetch-answer does-not-exist case, and 500 for a store write
failure with the cause attached. -/
theorem c9_envelope_and_status_mapping (st : FStore)
    (name pw offer answer : Option String)
    (hread : st.readFail = none) :
    ((connectionOffer st name pw offer).1 = .response 403 (.failure "Invalid connection name")
      ∨ (connectionOffer st name pw offer).1 = .response 403 (.failure "Invalid offer")
      ∨ (connectionOffer st name pw offer).1 = .response 200 (.success (some "Success"))
      ∨ (∃ e, st.writeFail = some e
          ∧ (connectionOffer st name pw offer).1 = .response 500 (.failure ("Error: " ++ e))))
    ∧ ((getOffer st name pw).1 = .response 403 (.failure "Invalid connection name")
      ∨ (getOffer st name pw).1 = .response 404 (.failure "Connection offer not found")
      ∨ (getOffer st name pw).1 = .response 403 (.failure "Invalid or incorrect password")
      ∨ (∃ d, (getOffer st name pw).1 = .response 200 (.success d)))
    ∧ ((connectionAnswer st name pw answer).1 = .response 403 (.failure "Invalid connection name")
      ∨ (connectionAnswer st name pw answer).1 = .response 404 (.failure "Connection offer not found")
      ∨ (connectionAnswer st name pw answer).1 = .response 403 (.failure "Invalid or incorrect password")
      ∨ (connectionAnswer st name pw answer).1 = .response 403 (.failure "Connection offer not found")
      ∨ (connectionAnswer st name pw answer).1 = .response 200 (.success (some "Success"))
      ∨ (∃ e, st.writeFail = some e
          ∧ (connectionAnswer st name pw answer).1 = .response 500 (.failure ("Error: " ++ e))))
    ∧ ((getAnswer st name).1 = .response 403 (.failure "Invalid connection name")
      ∨ (getAnswer st name).1 = .response 403 (.failure "Connection does not exist")
      ∨ (getAnswer st name).1 = .response 404 (.failure "Connection answer not found")
      ∨ (∃ d, (getAnswer st name).1 = .response 200 (.success d))) := by
  refine ⟨connectionOffer_outcomes st name pw offer, ?_, ?_, ?_⟩
  · have h := getOffer_outcomes st name pw
    rw [hread] at h
    simpa using h
  · have h := connectionAnswer_outcomes st name pw answer
    rw [hread] at h
    simpa using h
  · have h := getAnswer_outcomes st name
    rw [hread] at h
    simpa using h

/-- Witness for C9 on a concrete one-record reliable store. -/
theorem c9_envelope_and_status_mapping_witness :
    ((connectionOffer ⟨[("abc", ⟨some "", some "o", none⟩)], none, none⟩
        (some "abc") none (some "p")).1 = .response 403 (.failure "Invalid connection name")
      ∨ (connectionOffer ⟨[("abc", ⟨some "", some "o", none⟩)], none, none⟩
        (some "abc") none (some "p")).1 = .response 403 (.failure "Invalid offer")
      ∨ (connectionOffer ⟨[("abc", ⟨some "", some "o", none⟩)], none, none⟩
        (some "abc") none (some "p")).1 = .response 200 (.success (some "Success"))
      ∨ (∃ e, (FStore.mk [("abc", ⟨some "", some "o", none⟩)] none none).writeFail = some e
          ∧ (connectionOffer ⟨[("abc", ⟨some "", some "o", none⟩)], none, none⟩
              (some "abc") none (some "p")).1 = .response 500 (.failure ("Error: " ++ e))))
    ∧ ((getOffer ⟨[("abc", ⟨some "", some "o", none⟩)], none, none⟩
        (some "abc") none).1 = .response 403 (.failure "Invalid connection name")
      ∨ (getOffer ⟨[("abc", ⟨some "", some "o", none⟩)], none, none⟩
        (some "abc") none).1 = .response 404 (.failure "Connection offer not found")
      ∨ (getOffer ⟨[("abc", ⟨some "", some "o", none⟩)], none, none⟩
        (some "abc") none).1 = .response 403 (.failure "Invalid or incorrect password")
      ∨ (∃ d, (getOffer ⟨[("abc", ⟨some "", some "o", none⟩)], none, none⟩
        (some "abc") none).1 = .response 200 (.success d)))
    ∧ ((connectionAnswer ⟨[("abc", ⟨some "", some "o", none⟩)], none, none⟩
        (some "abc") none (some "a")).1 = .response 403 (.failure "Invalid connection name")
      ∨ (connectionAnswer ⟨[("abc", ⟨some "", some "o", none⟩)], none, none⟩
        (some "abc") none (some "a")).1 = .response 404 (.failure "Connection offer not found")
      ∨ (connectionAnswer ⟨[("abc", ⟨some "", some "o", none⟩)], none, none⟩
        (some "abc") none (some "a")).1 = .response 403 (.failure "Invalid or incorrect password")
      ∨ (connectionAnswer ⟨[("abc", ⟨some "", some "o", none⟩)], none, none⟩
        (some "abc") none (some "a")).1 = .response 403 (.failure "Connection offer not found")
      ∨ (connectionAnswer ⟨[("abc", ⟨some "", some "o", none⟩)], none, none⟩
        (some "abc") none (some "a")).1 = .response 200 (.success (some "Success"))
      ∨ (∃ e, (FStore.mk [("abc", ⟨some "", some "o", none⟩)] none none).writeFail = some e
          ∧ (connectionAnswer ⟨[("abc", ⟨some "", some "o", none⟩)], none, none⟩
              (some "abc") none (some "a")).1 = .response 500 (.failure ("Error: " ++ e))))
    ∧ ((getAnswer ⟨[("abc", ⟨some "", some "o", none⟩)], none, none⟩
        (some "abc")).1 = .response 403 (.failure "Invalid connection name")
      ∨ (getAnswer ⟨[("abc", ⟨some "", some "o", none⟩)], none, none⟩
        (some "abc")).1 = .response 403 (.failure "Connection does not exist")
      ∨ (getAnswer ⟨[("abc", ⟨some "", some "o", none⟩)], none, none⟩
        (some "abc")).1 = .response 404 (.failure "Connection answer not found")
      ∨ (∃ d, (getAnswer ⟨[("abc", ⟨some "", some "o", none⟩)], none, none⟩
        (some "abc")).1 = .response 200 (.success d))) :=
  c9_envelope_and_status_mapping ⟨[("abc", ⟨some "", some "o", none⟩)], none, none⟩
    (some "abc") none (some "p") (some "a") rfl
